import Mathlib

/-!
Shallow embedding of `train.py` from the arcface-pytorch training driver.

The script is sequential glue: it builds a configuration, datasets and data
loaders, a backbone model, a margin head, a loss, an optimizer and a
scheduler, then runs a fixed double for-loop (epochs x batches) with metric
accumulation, checkpoint writing and log printing.  The definitions below
embed the control flow, string handling and arithmetic of the script;
external library calls (dataset loading, device transfer, tensor compute,
serialization) are represented by an environment of `Except`-valued results,
since the script neither implements nor handles them.
-/

namespace ArcFaceTrain

/-- A Python exception value: the script itself raises only
`TypeError('not match model type')` (train.py line 69); every other error
comes from an external library call. -/
inductive PyErr where
  | typeError (msg : String) : PyErr
  | external (tag : String) : PyErr
deriving DecidableEq, Repr

/-- Modelled from the spec: the configuration record (hyperparameters) built
by `Config()` in `config/config.py`, which is not under `src/`; the fields
are exactly those that `train.py` reads from `opt`. -/
structure Config where
  display : Bool
  backbone : String
  loss : String
  metric : String
  optimizer : String
  use_se : Bool
  easy_margin : Bool
  num_classes : Nat
  max_epoch : Nat
  save_interval : Nat
  lr_step : Nat
  print_freq : Nat
  lr : Rat
  weight_decay : Rat
  checkpoints_path : String
  test_model_path : String
deriving DecidableEq, Repr

/-- The command-line arguments object produced by `argparse` (train.py
lines 182-191): a single `store_true` flag. -/
structure Args where
  train_second : Bool
deriving DecidableEq, Repr

/-- The `store_true` flags registered on the `ArgumentParser`
(train.py lines 185-189): only `--train_second`. -/
def storeTrueFlags : List String := ["--train_second"]

/-- Semantics of `parser.parse_args(argv)` for a parser holding only
`store_true` flags: each recognized token is collected; an unrecognized
token makes `argparse` error out. -/
def parseArgv (flags : List String) : List String → Except String (List String)
  | [] => Except.ok []
  | t :: rest =>
    if t ∈ flags then (parseArgv flags rest).map (fun s => t :: s)
    else Except.error ("unrecognized arguments: " ++ t)

/-- `args = parser.parse_args()` for this script: `args.train_second` is
`True` exactly when the flag appears on the command line. -/
def argsOf (argv : List String) : Except String Args :=
  (parseArgv storeTrueFlags argv).map (fun seen => ⟨"--train_second" ∈ seen⟩)

/-- The backbone model object selected at train.py lines 62-69. -/
inductive Backbone where
  | resnet_face18 (use_se : Bool) : Backbone
  | resnet34 : Backbone
  | resnet50 : Backbone
deriving DecidableEq, Repr

/-- Backbone selection (train.py lines 62-69): three recognized names,
anything else raises `TypeError('not match model type')`. -/
def selectBackbone (backbone : String) (use_se : Bool) : Except PyErr Backbone :=
  if backbone = "resnet18" then Except.ok (Backbone.resnet_face18 use_se)
  else if backbone = "resnet34" then Except.ok Backbone.resnet34
  else if backbone = "resnet50" then Except.ok Backbone.resnet50
  else Except.error (PyErr.typeError ("not match model type"))

/-- The loss object selected at train.py lines 57-60. -/
inductive Criterion where
  | focalLoss (gamma : Nat) : Criterion
  | crossEntropyLoss : Criterion
deriving DecidableEq, Repr

def selectCriterion (loss : String) : Criterion :=
  if loss = "focal_loss" then Criterion.focalLoss 2 else Criterion.crossEntropyLoss

/-- The classification head selected at train.py lines 83-90. -/
inductive Head where
  | addMargin (inF outF : Nat) (s m : Rat) : Head
  | arcMargin (inF outF : Nat) (s m : Rat) (easy_margin : Bool) : Head
  | sphere (inF outF : Nat) (m : Nat) : Head
  | linear (inF outF : Nat) : Head
deriving DecidableEq, Repr

def selectHead (metric : String) (num_classes : Nat) (easy_margin : Bool) : Head :=
  if metric = "add_margin" then Head.addMargin 512 num_classes 30 (35/100)
  else if metric = "arc_margin" then Head.arcMargin 512 num_classes 30 (1/2) easy_margin
  else if metric = "sphere" then Head.sphere 512 num_classes 4
  else Head.linear 512 num_classes

/-- The optimizer selected at train.py lines 95-100. -/
inductive Optim where
  | sgd (lr weight_decay : Rat) : Optim
  | adam (lr weight_decay : Rat) : Optim
deriving DecidableEq, Repr

def selectOptimizer (opt : Config) : Optim :=
  if opt.optimizer = "sgd" then Optim.sgd opt.lr opt.weight_decay
  else Optim.adam opt.lr opt.weight_decay

/-- Whether a string begins with the path separator. -/
def headIsSlash (s : String) : Bool :=
  match s.data with
  | [] => false
  | c :: _ => c = '/'

/-- Whether a string ends with the path separator. -/
def lastIsSlash (s : String) : Bool :=
  match s.data.getLast? with
  | some c => c = '/'
  | none => false

/-- POSIX `os.path.join` restricted to two components, as called at
train.py line 26: an absolute second component discards the first;
otherwise the parts are joined, inserting `'/'` unless the first part is
empty or already ends in `'/'`. -/
def ospathJoin (a b : String) : String :=
  if headIsSlash b then b
  else if a = "" then b
  else if lastIsSlash a then a ++ b
  else a ++ "/" ++ b

/-- The checkpoint path computed inside `save_model`
(train.py line 26): `os.path.join(save_path, name + '_' + str(iter_cnt) + '.pth')`. -/
def saveName (save_path name : String) (iter_cnt : Nat) : String :=
  ospathJoin save_path (name ++ "_" ++ toString iter_cnt ++ ".pth")

/-- The observable effect of `torch.save(model.state_dict(), save_name)`:
a write of the model's serialized state to a path. -/
structure SaveCall (σ : Type) where
  path : String
  state : σ
deriving DecidableEq, Repr

/-- `save_model` (train.py lines 25-28): writes the model's `state_dict()`
to the joined path and returns that path. -/
def save_model {σ : Type} (modelState : σ) (save_path name : String) (iter_cnt : Nat) :
    SaveCall σ × String :=
  let save_name := saveName save_path name iter_cnt
  ({ path := save_name, state := modelState }, save_name)

/-- One batch yielded by a data loader, together with the per-batch scalars
the loop observes from the external numeric computation: `len(label)`, the
batch accuracy `np.mean((output == label).astype(int))`, the scalar
`loss.item()`, the timing values `spend_time` and `speed`.  Float scalars
are modelled as rationals. -/
structure Batch where
  size : Nat
  acc : Rat
  lossVal : Rat
  spend : Rat
  speed : Rat
deriving DecidableEq, Repr

/-- The accumulation pattern `lst.extend([x] * len(label))` iterated over the
batches of a loader (train.py lines 130-131 and 170-172): each batch
contributes `size` copies of its scalar. -/
def extendRepl (batches : List Batch) (f : Batch → Rat) : List Rat :=
  batches.flatMap (fun b => List.replicate b.size (f b))

/-- `np.mean` over a Python list of floats: sum divided by length.
(`np.mean([])` is NaN in numpy; the embedding's value at the empty list is
never relied on.) -/
def listMean (l : List Rat) : Rat :=
  l.sum / (l.length : Rat)

/-- A token of a Python format string: literal text or an auto-numbered
replacement field. -/
inductive FmtTok where
  | lit (s : String) : FmtTok
  | hole : FmtTok
deriving DecidableEq, Repr

/-- `str.format` semantics for auto-numbered fields: each hole consumes the
next positional argument; surplus arguments are silently ignored.  (Python
raises IndexError when arguments run out; the scripts calls never do.) -/
def pyFormat : List FmtTok → List String → String
  | [], _ => ""
  | FmtTok.lit s :: rest, as => s ++ pyFormat rest as
  | FmtTok.hole :: rest, a :: as => a ++ pyFormat rest as
  | FmtTok.hole :: rest, [] => pyFormat rest []

/-- Number of replacement fields in a format string. -/
def countHoles (fmt : List FmtTok) : Nat :=
  (fmt.filter (fun t => t = FmtTok.hole)).length

/-- The training log format string of train.py line 135, tokenized:
the literal is  brace-brace, " train epoch ", brace-brace, two spaces,
brace-brace, " seconds/epoch loss ", brace-brace, " acc ", brace-brace. -/
def trainFmt : List FmtTok :=
  [FmtTok.hole, FmtTok.lit (" train epoch "), FmtTok.hole, FmtTok.lit ("  "),
   FmtTok.hole, FmtTok.lit (" seconds/epoch loss "), FmtTok.hole,
   FmtTok.lit (" acc "), FmtTok.hole]

/-- The validation log format string of train.py line 174, tokenized:
brace-brace, " val epoch ", brace-brace, "  loss ", brace-brace,
" acc ", brace-brace — four replacement fields. -/
def valFmt : List FmtTok :=
  [FmtTok.hole, FmtTok.lit (" val epoch "), FmtTok.hole, FmtTok.lit ("  loss "),
   FmtTok.hole, FmtTok.lit (" acc "), FmtTok.hole]

/-- The five arguments passed to `.format` at train.py lines 174-175:
`time_str, i, np.mean(eval_speed), np.mean(eval_loss), np.mean(eval_acc)`. -/
def valArgs (time_str : String) (i : Nat) (val : List Batch) : List String :=
  [time_str, toString i,
   toString (listMean (extendRepl val (fun b => b.speed))),
   toString (listMean (extendRepl val (fun b => b.lossVal))),
   toString (listMean (extendRepl val (fun b => b.acc)))]

/-- The checkpoint writes of one epoch (train.py lines 142-147): in
second-stage mode `metric_fc` is saved as `fc` every epoch; otherwise the
backbone and head are saved when `i % opt.save_interval == 0 or
i == opt.max_epoch`. -/
def savePaths (opt : Config) (train_second : Bool) (i : Nat) : List String :=
  if train_second then
    [(save_model () opt.checkpoints_path ("fc") i).2]
  else if i % opt.save_interval = 0 ∨ i = opt.max_epoch then
    [(save_model () opt.checkpoints_path opt.backbone i).2,
     (save_model () opt.checkpoints_path ("metric_fc") i).2]
  else
    []

/-- An observable event of the epoch body, in program order: processing one
training batch (lines 109-134), writing one checkpoint (lines 142-147),
processing one validation batch (lines 154-172). -/
inductive LoopEvent where
  | trainBatch (b : Batch) : LoopEvent
  | savedCkpt (path : String) : LoopEvent
  | valBatch (b : Batch) : LoopEvent
deriving DecidableEq, Repr

/-- Observable trace of one iteration of the epoch loop (train.py
lines 104-178): the sequence of events in statement order, the train log
line, the checkpoint paths written, the val log line. -/
structure EpochTrace where
  idx : Nat
  events : List LoopEvent
  trainLine : String
  saved : List String
  valLine : String
deriving DecidableEq, Repr

/-- One iteration of `for i in range(opt.max_epoch)`: iterate every train
batch accumulating `train_acc`/`train_loss`/`train_spend`, print the train
line, save checkpoints, iterate every val batch accumulating
`eval_acc`/`eval_loss`/`eval_speed`, print the val line.  `train_spend`
gets a single `spend_time` per batch (`extend([spend_time])`, line 132)
while the other accumulators get `len(label)` copies. -/
def epochRun (opt : Config) (train_second : Bool) (i : Nat)
    (train val : List Batch) (tsTrain tsVal : String) : EpochTrace :=
  let saved := savePaths opt train_second i
  { idx := i
    events := train.map LoopEvent.trainBatch
      ++ (saved.map LoopEvent.savedCkpt
      ++ val.map LoopEvent.valBatch)
    trainLine := pyFormat trainFmt
      [tsTrain, toString i,
       toString (train.map (fun b => b.spend)).sum,
       toString (listMean (extendRepl train (fun b => b.lossVal))),
       toString (listMean (extendRepl train (fun b => b.acc)))]
    saved := saved
    valLine := pyFormat valFmt (valArgs tsVal i val) }

/-- The full double for-loop (train.py lines 104-178): one `EpochTrace`
per epoch index in `range(opt.max_epoch)`. -/
def loopRun (opt : Config) (train_second : Bool) (train val : List Batch)
    (tsTrain tsVal : String) : List EpochTrace :=
  (List.range opt.max_epoch).map
    (fun i => epochRun opt train_second i train val tsTrain tsVal)

/-- Results of the external library calls `main` makes, in the script's
order.  Each `Except` field is what the call would return or raise; the
script installs no handler, so these are simply bound in sequence.
`epochRes i` stands for the external numeric and file work of epoch `i`
(batch fetch, forward/backward/step, `torch.save`). -/
structure Env where
  getTrainLabelsRes : Except PyErr Nat
  cudaAvailable : Bool
  trainDatasetRes : Except PyErr (List Batch)
  valDatasetRes : Except PyErr (List Batch)
  modelToDeviceRes : Except PyErr Unit
  torchLoadRes : Except PyErr Unit
  epochRes : Nat → Except PyErr Unit
  tsTrain : String
  tsVal : String

/-- All external calls of a run succeed. -/
def Env.allOk (env : Env) : Prop :=
  (∃ n, env.getTrainLabelsRes = Except.ok n) ∧
  (∃ tb, env.trainDatasetRes = Except.ok tb) ∧
  (∃ vb, env.valDatasetRes = Except.ok vb) ∧
  env.modelToDeviceRes = Except.ok () ∧
  env.torchLoadRes = Except.ok () ∧
  (∀ i, env.epochRes i = Except.ok ())

/-- `device = 'cuda' if torch.cuda.is_available() else 'cpu'`
(train.py lines 37-40). -/
inductive Device where
  | cuda : Device
  | cpu : Device
deriving DecidableEq, Repr

/-- A construction stage of the pipeline in `main`, used to record the
order in which the script builds its objects. -/
inductive BuildStep where
  | config : BuildStep
  | dataset : BuildStep
  | loss : BuildStep
  | model : BuildStep
  | head : BuildStep
  | optimizer : BuildStep
  | loop : BuildStep
deriving DecidableEq, Repr

/-- One epoch of the loop threaded through the external calls: epoch `i`
first performs its external work (`env.epochRes i`), and on success
contributes its `EpochTrace`; a raised exception aborts the loop and
propagates. -/
def loopStep (opt : Config) (train_second : Bool) (env : Env)
    (train val : List Batch) (acc : Except PyErr (List EpochTrace)) (i : Nat) :
    Except PyErr (List EpochTrace) :=
  acc >>= fun done =>
  env.epochRes i >>= fun _ =>
  Except.ok (done ++ [epochRun opt train_second i train val env.tsTrain env.tsVal])

/-- The epoch loop threaded through the external calls. -/
def loopRunE (opt : Config) (train_second : Bool) (env : Env)
    (train val : List Batch) : Except PyErr (List EpochTrace) :=
  (List.range opt.max_epoch).foldl (loopStep opt train_second env train val)
    (Except.ok [])

/-- `main(args)` (train.py lines 31-178), with the order of object
construction recorded as a `BuildStep` log: `Config()` first, then
`get_train_labels`, device selection, the two Dataset/DataLoader pairs,
the criterion (lines 57-60), the backbone (lines 62-69) with device
transfer and the optional second-stage `load_state_dict`/freeze
(lines 70-80), the margin head (lines 83-93), the optimizer and scheduler
(lines 95-101), and finally the epoch loop (lines 104-178). -/
def mainRun (opt0 : Config) (args : Args) (env : Env) :
    Except PyErr (List BuildStep) :=
  let steps0 := [BuildStep.config]
  env.getTrainLabelsRes >>= fun numClasses =>
  let opt1 : Config := { opt0 with num_classes := numClasses }
  let _device : Device := if env.cudaAvailable then Device.cuda else Device.cpu
  env.trainDatasetRes >>= fun train =>
  env.valDatasetRes >>= fun val =>
  let steps1 := steps0 ++ [BuildStep.dataset]
  let _criterion := selectCriterion opt1.loss
  let steps2 := steps1 ++ [BuildStep.loss]
  selectBackbone opt1.backbone opt1.use_se >>= fun _model =>
  env.modelToDeviceRes >>= fun _ =>
  let opt2 := if args.train_second then { opt1 with metric := "liner" } else opt1
  (if args.train_second then env.torchLoadRes else Except.ok ()) >>= fun _ =>
  let steps3 := steps2 ++ [BuildStep.model]
  let _head := selectHead opt2.metric opt2.num_classes opt2.easy_margin
  let steps4 := steps3 ++ [BuildStep.head]
  let _optim := selectOptimizer opt2
  let steps5 := steps4 ++ [BuildStep.optimizer]
  loopRunE opt2 args.train_second env train val >>= fun _traces =>
  Except.ok (steps5 ++ [BuildStep.loop])

/-- A tensor parameter as the optimizer sees it: its value (one scalar
coordinate, as a rational), its `requires_grad` flag, and its accumulated
`.grad` (None before any backward pass). -/
structure Param where
  value : Rat
  requiresGrad : Bool
  grad : Option Rat
deriving DecidableEq, Repr

/-- A freshly constructed module parameter: PyTorch creates parameters with
`requires_grad=True` and no gradient. -/
def initParam (v : Rat) : Param :=
  { value := v, requiresGrad := true, grad := none }

/-- `for param in model.parameters(): param.requires_grad = False`
(train.py lines 78-79). -/
def freezeParams (ps : List Param) : List Param :=
  ps.map (fun p => { p with requiresGrad := false })

/-- `optimizer.zero_grad()` (train.py line 119): clears every gradient. -/
def zeroGrad (ps : List Param) : List Param :=
  ps.map (fun p => { p with grad := none })

/-- `loss.backward()` (train.py line 120): autograd accumulates a gradient
into `.grad` for each parameter with `requires_grad=True` and leaves frozen
parameters with no gradient; `g j` is the gradient of the parameter at
index `j` for this batch. -/
def backwardAccum (g : Nat → Rat) : List Param → Nat → List Param
  | [], _ => []
  | p :: ps, j =>
    (if p.requiresGrad then { p with grad := some (p.grad.getD 0 + g j) } else p) ::
      backwardAccum g ps (j + 1)

/-- `optimizer.step()` (train.py line 121) for SGD: a parameter whose
`.grad` is None is skipped (so weight decay never touches it either);
otherwise its value moves by `-lr * grad`. -/
def sgdStep (lr : Rat) (ps : List Param) : List Param :=
  ps.map (fun p =>
    match p.grad with
    | none => p
    | some g => { p with value := p.value - lr * g })

/-- One training iteration of the inner batch loop (train.py
lines 119-121): `zero_grad`, `backward`, `step`. -/
def optIter (lr : Rat) (g : Nat → Rat) (ps : List Param) : List Param :=
  sgdStep lr (backwardAccum g (zeroGrad ps) 0)

/-- The optimizer iterations of a whole run, one gradient assignment per
batch. -/
def runTraining (lr : Rat) (gs : List (Nat → Rat)) (ps : List Param) : List Param :=
  gs.foldl (fun cur g => optIter lr g cur) ps

/-- A sample configuration with the shape the script expects (two epochs,
checkpoint every tenth epoch), used to evaluate the embedding on concrete
runs. -/
def cfgEx : Config :=
  { display := false
    backbone := "resnet18"
    loss := "focal_loss"
    metric := "arc_margin"
    optimizer := "sgd"
    use_se := false
    easy_margin := false
    num_classes := 0
    max_epoch := 2
    save_interval := 10
    lr_step := 10
    print_freq := 100
    lr := 1/10
    weight_decay := 5/10000
    checkpoints_path := "checkpoints"
    test_model_path := "test.pth" }

/-- A sample environment in which every external call succeeds and both
loaders are empty. -/
def envOkEx : Env :=
  { getTrainLabelsRes := Except.ok 5
    cudaAvailable := false
    trainDatasetRes := Except.ok []
    valDatasetRes := Except.ok []
    modelToDeviceRes := Except.ok ()
    torchLoadRes := Except.ok ()
    epochRes := fun _ => Except.ok ()
    tsTrain := "t"
    tsVal := "v" }

/-! ## Helper lemmas -/

theorem exceptOkBind {ε α β : Type} (a : α) (f : α → Except ε β) :
    (Except.ok a : Except ε α) >>= f = f a := rfl

theorem exceptErrorBind {ε α β : Type} (e : ε) (f : α → Except ε β) :
    (Except.error e : Except ε α) >>= f = Except.error e := rfl

theorem selectBackbone_error_msg (b : String) (s : Bool) (e : PyErr)
    (h : selectBackbone b s = Except.error e) :
    e = PyErr.typeError ("not match model type") := by
  unfold selectBackbone at h
  split at h
  · exact absurd h (by simp)
  · split at h
    · exact absurd h (by simp)
    · split at h
      · exact absurd h (by simp)
      · exact (Except.error.injEq _ _ ▸ h.symm).symm ▸ rfl

theorem foldl_loopStep_err (opt : Config) (ts : Bool) (env : Env)
    (tr vl : List Batch) (e : PyErr) :
    ∀ l : List Nat,
      l.foldl (loopStep opt ts env tr vl) (Except.error e) = Except.error e := by
  intro l
  induction l with
  | nil => rfl
  | cons i l ih =>
    have hstep : loopStep opt ts env tr vl (Except.error e) i = Except.error e := rfl
    simpa [List.foldl_cons, hstep] using ih

theorem foldl_loopStep_ok (opt : Config) (ts : Bool) (env : Env)
    (tr vl : List Batch) :
    ∀ (l : List Nat) (acc : List EpochTrace),
      (∀ i ∈ l, env.epochRes i = Except.ok ()) →
      l.foldl (loopStep opt ts env tr vl) (Except.ok acc)
        = Except.ok (acc ++ l.map
            (fun i => epochRun opt ts i tr vl env.tsTrain env.tsVal)) := by
  intro l
  induction l with
  | nil => intro acc _; simp
  | cons i l ih =>
    intro acc h
    have hi : env.epochRes i = Except.ok () := h i (by simp)
    have hstep : loopStep opt ts env tr vl (Except.ok acc) i
        = Except.ok (acc ++ [epochRun opt ts i tr vl env.tsTrain env.tsVal]) := by
      simp [loopStep, exceptOkBind, hi]
    rw [List.foldl_cons, hstep, ih _ (fun j hj => h j (by simp [hj]))]
    simp

theorem loopRunE_ok (opt : Config) (ts : Bool) (env : Env) (tr vl : List Batch)
    (h : ∀ i, env.epochRes i = Except.ok ()) :
    loopRunE opt ts env tr vl
      = Except.ok (loopRun opt ts tr vl env.tsTrain env.tsVal) := by
  unfold loopRunE loopRun
  rw [foldl_loopStep_ok opt ts env tr vl _ [] (fun i _ => h i)]
  simp

theorem foldl_loopStep_first_err (opt : Config) (ts : Bool) (env : Env)
    (tr vl : List Batch) (k : Nat) (e : PyErr)
    (hk_err : env.epochRes k = Except.error e) :
    ∀ (n s : Nat) (acc : List EpochTrace), s ≤ k → k < s + n →
      (∀ j, s ≤ j → j < k → env.epochRes j = Except.ok ()) →
      (List.range' s n).foldl (loopStep opt ts env tr vl) (Except.ok acc)
        = Except.error e := by
  intro n
  induction n with
  | zero => intro s acc hs hlt _; omega
  | succ n ih =>
    intro s acc hs hlt hpre
    have hrange : List.range' s (n + 1) = s :: List.range' (s + 1) n := rfl
    rw [hrange, List.foldl_cons]
    by_cases hsk : s = k
    · subst hsk
      have hstep : loopStep opt ts env tr vl (Except.ok acc) s = Except.error e := by
        simp [loopStep, exceptOkBind, hk_err, exceptErrorBind]
      rw [hstep]
      exact foldl_loopStep_err opt ts env tr vl e _
    · have hs' : env.epochRes s = Except.ok () := hpre s le_rfl (by omega)
      have hstep : loopStep opt ts env tr vl (Except.ok acc) s
          = Except.ok (acc ++ [epochRun opt ts s tr vl env.tsTrain env.tsVal]) := by
        simp [loopStep, exceptOkBind, hs']
      rw [hstep]
      exact ih (s + 1) _ (by omega) (by omega) (fun j hj hj2 => hpre j (by omega) hj2)

theorem loopRunE_err (opt : Config) (ts : Bool) (env : Env) (tr vl : List Batch)
    (k : Nat) (e : PyErr) (hk : k < opt.max_epoch)
    (hpre : ∀ j, j < k → env.epochRes j = Except.ok ())
    (hk_err : env.epochRes k = Except.error e) :
    loopRunE opt ts env tr vl = Except.error e := by
  unfold loopRunE
  rw [List.range_eq_range']
  exact foldl_loopStep_first_err opt ts env tr vl k e hk_err opt.max_epoch 0 []
    (Nat.zero_le k) (by omega) (fun j _ hj2 => hpre j hj2)

theorem extendRepl_length (bs : List Batch) (f : Batch → Rat) :
    (extendRepl bs f).length = (bs.map Batch.size).sum := by
  induction bs with
  | nil => rfl
  | cons b l ih =>
    simp only [extendRepl, List.flatMap_cons, List.length_append,
      List.length_replicate, List.map_cons, List.sum_cons]
    have h2 : (l.flatMap fun x => List.replicate x.size (f x)).length
        = (List.map Batch.size l).sum := ih
    omega

theorem extendRepl_sum (bs : List Batch) (f : Batch → Rat) :
    (extendRepl bs f).sum = (bs.map (fun b => (b.size : Rat) * f b)).sum := by
  induction bs with
  | nil => rfl
  | cons b l ih =>
    simp only [extendRepl, List.flatMap_cons, List.sum_append,
      List.sum_replicate, nsmul_eq_mul, List.map_cons, List.sum_cons]
    have h2 : (l.flatMap fun x => List.replicate x.size (f x)).sum
        = (List.map (fun b => (b.size : Rat) * f b) l).sum := ih
    rw [h2]

/-! ## Claim theorems -/

/-- C3: `save_model` writes the model's serialized state to
`os.path.join(save_path, name + '_' + str(iter_cnt) + '.pth')` and returns
exactly that path; under the normal conditions (relative filename,
non-empty save directory not ending in a separator) the resulting path is
`save_path ++ "/" ++ name ++ "_" ++ iter_cnt ++ ".pth"`, i.e. the
checkpoint file is named `{name}_{epoch}.pth`. -/
theorem save_model_spec {σ : Type} (state : σ) (save_path name : String)
    (iter_cnt : Nat) :
    (save_model state save_path name iter_cnt).2
        = saveName save_path name iter_cnt
    ∧ (save_model state save_path name iter_cnt).1.path
        = (save_model state save_path name iter_cnt).2
    ∧ (save_model state save_path name iter_cnt).1.state = state
    ∧ (headIsSlash (name ++ "_" ++ toString iter_cnt ++ ".pth") = false →
        save_path ≠ "" → lastIsSlash save_path = false →
        (save_model state save_path name iter_cnt).2
          = save_path ++ "/" ++ (name ++ "_" ++ toString iter_cnt ++ ".pth")) := by
  refine ⟨rfl, rfl, rfl, fun h1 h2 h3 => ?_⟩
  simp [save_model, saveName, ospathJoin, h1, h2, h3]

/-- Witness for C3 at a concrete call: epoch 7 of a `resnet18` run is
written to and returned as `checkpoints/resnet18_7.pth`. -/
theorem save_model_spec_witness :
    (save_model (0 : Nat) "checkpoints" "resnet18" 7).2
        = "checkpoints/resnet18_7.pth"
    ∧ (save_model (0 : Nat) "checkpoints" "resnet18" 7).1.state = 0 := by
  have h := save_model_spec (0 : Nat) "checkpoints" "resnet18" 7
  refine ⟨?_, h.2.2.1⟩
  rw [h.2.2.2 rfl (by decide) rfl]
  rfl

/-- C8: the CLI defines exactly one optional `store_true` flag,
`--train_second`: with no arguments it parses to `False`, with the flag it
parses to `True`, and any other single token is rejected as unrecognized. -/
theorem cli_single_flag :
    storeTrueFlags = ["--train_second"]
    ∧ argsOf [] = Except.ok ⟨false⟩
    ∧ argsOf ["--train_second"] = Except.ok ⟨true⟩
    ∧ (∀ t : String, t ≠ "--train_second" →
        argsOf [t] = Except.error ("unrecognized arguments: " ++ t)) := by
  refine ⟨rfl, rfl, rfl, fun t ht => ?_⟩
  simp [argsOf, parseArgv, storeTrueFlags, ht, Except.map]

/-- Witness for C8: the token `--resume` is not among the defined flags and
is rejected. -/
theorem cli_single_flag_witness :
    argsOf ["--resume"] = Except.error ("unrecognized arguments: --resume") :=
  cli_single_flag.2.2.2 ("--resume") (by decide)

theorem mainRun_allOk (opt0 : Config) (args : Args) (env : Env)
    (n : Nat) (tb vb : List Batch)
    (hn : env.getTrainLabelsRes = Except.ok n)
    (ht : env.trainDatasetRes = Except.ok tb)
    (hv : env.valDatasetRes = Except.ok vb)
    (hm : env.modelToDeviceRes = Except.ok ())
    (hl : env.torchLoadRes = Except.ok ())
    (he : ∀ i, env.epochRes i = Except.ok ()) :
    mainRun opt0 args env
      = (selectBackbone opt0.backbone opt0.use_se).map (fun _ =>
          [BuildStep.config, BuildStep.dataset, BuildStep.loss, BuildStep.model,
           BuildStep.head, BuildStep.optimizer, BuildStep.loop]) := by
  simp only [mainRun, hn, ht, hv, hm, hl, exceptOkBind]
  cases hsel : selectBackbone opt0.backbone opt0.use_se with
  | error e => simp [hsel, exceptErrorBind, Except.map]
  | ok bb =>
    simp only [hsel, exceptOkBind, Except.map]
    cases hts : args.train_second <;>
      simp only [if_pos, if_neg, Bool.false_eq_true, ite_true, ite_false,
        exceptOkBind] <;>
      rw [loopRunE_ok _ _ env tb vb he] <;> rfl

/-- C1: backbone dispatch — each of the three recognized names constructs
the corresponding model, every other name raises
`TypeError('not match model type')`, and when every external call succeeds
this `TypeError` is the only error a run of `main` can produce (it is the
script's only explicit `raise`). -/
theorem backbone_dispatch :
    (∀ s, selectBackbone ("resnet18") s = Except.ok (Backbone.resnet_face18 s))
    ∧ (∀ s, selectBackbone ("resnet34") s = Except.ok Backbone.resnet34)
    ∧ (∀ s, selectBackbone ("resnet50") s = Except.ok Backbone.resnet50)
    ∧ (∀ (b : String) (s : Bool), b ≠ "resnet18" → b ≠ "resnet34" →
        b ≠ "resnet50" →
        selectBackbone b s = Except.error (PyErr.typeError ("not match model type")))
    ∧ (∀ (opt : Config) (args : Args) (env : Env) (e : PyErr), env.allOk →
        mainRun opt args env = Except.error e →
        e = PyErr.typeError ("not match model type")) := by
  refine ⟨fun s => rfl, fun s => rfl, fun s => rfl, fun b s h1 h2 h3 => ?_, ?_⟩
  · simp [selectBackbone, h1, h2, h3]
  · rintro opt args env e ⟨⟨n, hn⟩, ⟨tb, ht⟩, ⟨vb, hv⟩, hm, hl, he⟩ hrun
    rw [mainRun_allOk opt args env n tb vb hn ht hv hm hl he] at hrun
    cases hsel : selectBackbone opt.backbone opt.use_se with
    | error e2 =>
      rw [hsel] at hrun
      cases hrun
      exact selectBackbone_error_msg _ _ _ hsel
    | ok bb => rw [hsel] at hrun; cases hrun

/-- Witness for C1: `vgg16` is rejected with the `TypeError`, and a full
concrete run with an unrecognized backbone fails with exactly that error. -/
theorem backbone_dispatch_witness :
    selectBackbone ("vgg16") true = Except.error (PyErr.typeError ("not match model type"))
    ∧ PyErr.typeError ("not match model type")
        = PyErr.typeError ("not match model type") := by
  constructor
  · exact backbone_dispatch.2.2.2.1 ("vgg16") true (by decide) (by decide) (by decide)
  · exact backbone_dispatch.2.2.2.2 { cfgEx with backbone := "vgg16" } ⟨false⟩
      envOkEx _ ⟨⟨5, rfl⟩, ⟨[], rfl⟩, ⟨[], rfl⟩, rfl, rfl, fun _ => rfl⟩ rfl

/-- C4 counterexample: on a concrete fault-free run the construction log is
Config, Dataset, **Loss**, Model, Head, Optimizer, loop — the loss is
constructed (train.py lines 57-60) before the model (lines 62-69), so the
claimed order Config, Dataset, Model+Head, Loss, Optimizer does not match. -/
theorem pipeline_order_cx :
    mainRun cfgEx ⟨false⟩ envOkEx
      = Except.ok [BuildStep.config, BuildStep.dataset, BuildStep.loss,
          BuildStep.model, BuildStep.head, BuildStep.optimizer, BuildStep.loop]
    ∧ [BuildStep.config, BuildStep.dataset, BuildStep.loss, BuildStep.model,
        BuildStep.head, BuildStep.optimizer, BuildStep.loop]
      ≠ [BuildStep.config, BuildStep.dataset, BuildStep.model, BuildStep.head,
          BuildStep.loss, BuildStep.optimizer, BuildStep.loop] :=
  ⟨rfl, by decide⟩

/-- C4 (amended): on every fault-free run with a recognized backbone, the
pipeline is constructed in the order Config, Dataset/DataLoader, Loss,
Model (with margin Head), Optimizer/scheduler, then the per-epoch loop that
invokes the checkpoint writer. -/
theorem pipeline_order_amended :
    ∀ (opt : Config) (args : Args) (env : Env) (bb : Backbone), env.allOk →
      selectBackbone opt.backbone opt.use_se = Except.ok bb →
      mainRun opt args env
        = Except.ok [BuildStep.config, BuildStep.dataset, BuildStep.loss,
            BuildStep.model, BuildStep.head, BuildStep.optimizer, BuildStep.loop] := by
  rintro opt args env bb ⟨⟨n, hn⟩, ⟨tb, ht⟩, ⟨vb, hv⟩, hm, hl, he⟩ hsel
  rw [mainRun_allOk opt args env n tb vb hn ht hv hm hl he, hsel]
  rfl

/-- Witness for C4 (amended) at a concrete second-stage run. -/
theorem pipeline_order_amended_witness :
    mainRun cfgEx ⟨true⟩ envOkEx
      = Except.ok [BuildStep.config, BuildStep.dataset, BuildStep.loss,
          BuildStep.model, BuildStep.head, BuildStep.optimizer, BuildStep.loop] :=
  pipeline_order_amended cfgEx ⟨true⟩ envOkEx (Backbone.resnet_face18 false)
    ⟨⟨5, rfl⟩, ⟨[], rfl⟩, ⟨[], rfl⟩, rfl, rfl, fun _ => rfl⟩ rfl

/-- C6: the training driver is a fixed double for-loop — it runs exactly
`opt.max_epoch` epochs with indices `0, 1, ..., max_epoch - 1`; within each
epoch it processes every batch of the training loader once, in order, then
writes its checkpoints, then processes every batch of the validation loader
once, in order; and when every external epoch call succeeds the effectful
loop terminates with exactly this trace. -/
theorem loop_double_for :
    ∀ (opt : Config) (ts2 : Bool) (train val : List Batch) (tsT tsV : String),
      (loopRun opt ts2 train val tsT tsV).length = opt.max_epoch
      ∧ (loopRun opt ts2 train val tsT tsV).map EpochTrace.idx
          = List.range opt.max_epoch
      ∧ (loopRun opt ts2 train val tsT tsV).map EpochTrace.events
          = (List.range opt.max_epoch).map (fun i =>
              train.map LoopEvent.trainBatch
              ++ ((savePaths opt ts2 i).map LoopEvent.savedCkpt
              ++ val.map LoopEvent.valBatch))
      ∧ (∀ env : Env, (∀ i, env.epochRes i = Except.ok ()) →
          loopRunE opt ts2 env train val
            = Except.ok (loopRun opt ts2 train val env.tsTrain env.tsVal)) := by
  intro opt ts2 train val tsT tsV
  refine ⟨by simp [loopRun], ?_, ?_, fun env h => loopRunE_ok opt ts2 env train val h⟩
  · unfold loopRun
    rw [List.map_map]
    have h1 : (EpochTrace.idx ∘ fun i => epochRun opt ts2 i train val tsT tsV)
        = id := rfl
    rw [h1, List.map_id]
  · unfold loopRun
    rw [List.map_map]
    have h2 : (EpochTrace.events ∘ fun i => epochRun opt ts2 i train val tsT tsV)
        = fun i => train.map LoopEvent.trainBatch
            ++ ((savePaths opt ts2 i).map LoopEvent.savedCkpt
            ++ val.map LoopEvent.valBatch) := rfl
    rw [h2]

/-- Witness for C6: a concrete fault-free threaded run completes and equals
the pure trace. -/
theorem loop_double_for_witness :
    loopRunE cfgEx false envOkEx [] []
      = Except.ok (loopRun cfgEx false [] [] "t" "v") :=
  (loop_double_for cfgEx false [] [] "t" "v").2.2.2 envOkEx (fun _ => rfl)

/-- C5: every epoch index lies in `[0, max_epoch)`, so the disjunct
`i == opt.max_epoch` of the saving condition (train.py line 145) is never
true; in normal mode the epochs that write a checkpoint are exactly those
with `i % opt.save_interval == 0`, and in particular the final epoch
`max_epoch - 1` is checkpointed only under that divisibility. -/
theorem checkpoint_schedule :
    ∀ (opt : Config) (train val : List Batch) (tsT tsV : String),
      0 < opt.save_interval →
      (∀ i ∈ List.range opt.max_epoch, i ≠ opt.max_epoch ∧
          ((i % opt.save_interval = 0 ∨ i = opt.max_epoch)
            ↔ i % opt.save_interval = 0))
      ∧ ((loopRun opt false train val tsT tsV).filter
            (fun t => !t.saved.isEmpty)).map EpochTrace.idx
          = (List.range opt.max_epoch).filter
              (fun i => i % opt.save_interval == 0)
      ∧ (0 < opt.max_epoch →
          ((savePaths opt false (opt.max_epoch - 1)).isEmpty = false
            ↔ (opt.max_epoch - 1) % opt.save_interval = 0)) := by
  intro opt train val tsT tsV _hsi
  refine ⟨fun i hi => ?_, ?_, fun hm => ?_⟩
  · have hlt : i < opt.max_epoch := List.mem_range.mp hi
    exact ⟨by omega, or_iff_left (by omega)⟩
  · unfold loopRun
    rw [List.filter_map, List.map_map]
    have hcomp : ((fun t => !t.saved.isEmpty) ∘
        (fun i => epochRun opt false i train val tsT tsV))
          = fun i => !(savePaths opt false i).isEmpty := rfl
    rw [hcomp]
    have hid : (EpochTrace.idx ∘ (fun i => epochRun opt false i train val tsT tsV))
        = id := rfl
    rw [hid, List.map_id]
    apply List.filter_congr
    intro i hi
    have hlt : i < opt.max_epoch := List.mem_range.mp hi
    have hne : ¬ i = opt.max_epoch := by omega
    by_cases h : i % opt.save_interval = 0
    · simp [savePaths, h]
    · simp [savePaths, h, hne]
  · have hne : ¬ (opt.max_epoch - 1 = opt.max_epoch) := by omega
    by_cases h : (opt.max_epoch - 1) % opt.save_interval = 0
    · simp [savePaths, h]
    · simp [savePaths, h, hne]

/-- Witness for C5: with `max_epoch = 2` and `save_interval = 10` only
epoch 0 writes checkpoints. -/
theorem checkpoint_schedule_witness :
    ((loopRun cfgEx false [] [] "t" "v").filter
        (fun t => !t.saved.isEmpty)).map EpochTrace.idx = [0] := by
  have h := (checkpoint_schedule cfgEx [] [] "t" "v" (by decide)).2.1
  rw [h]
  rfl

/-- C2: in the validation log line the third format argument — the mean of
`eval_speed` — is printed under the label `loss`, the fourth — the mean of
`eval_loss` — under the label `acc`; the format string has four
replacement fields while five arguments are passed, and the fifth (the mean
validation accuracy) does not appear in the output. -/
theorem val_log_swaps_metrics :
    ∀ (opt : Config) (ts2 : Bool) (i : Nat) (train val : List Batch)
      (tsT tsV : String),
      (epochRun opt ts2 i train val tsT tsV).valLine
        = tsV ++ (" val epoch " ++ (toString i ++ ("  loss "
            ++ (toString (listMean (extendRepl val (fun b => b.speed)))
            ++ (" acc "
            ++ toString (listMean (extendRepl val (fun b => b.lossVal))))))))
      ∧ countHoles valFmt = 4
      ∧ (valArgs tsV i val).length = 5
      ∧ (∀ a b c d e1 e2 : String,
          pyFormat valFmt [a, b, c, d, e1] = pyFormat valFmt [a, b, c, d, e2]) := by
  intro opt ts2 i train val tsT tsV
  refine ⟨?_, by decide, rfl, fun a b c d e1 e2 => ?_⟩
  · simp [epochRun, valArgs, valFmt, pyFormat, String.append_empty]
  · simp [valFmt, pyFormat, String.append_empty]

/-- C10: the accumulators built with `extend([x] * len(label))` make
`np.mean` a sample-weighted average — its value is
`(Σ size_b * x_b) / (Σ size_b)` — which differs from the uniform average of
the per-batch means (shown at batches of sizes 1 and 3 with accuracies 0
and 1: 3/4 versus 1/2). -/
theorem metric_sample_weighted :
    (∀ (bs : List Batch) (f : Batch → Rat),
      listMean (extendRepl bs f)
        = (bs.map (fun b => (b.size : Rat) * f b)).sum
            / (bs.map (fun b => (b.size : Rat))).sum)
    ∧ listMean (extendRepl [⟨1, 0, 0, 0, 0⟩, ⟨3, 1, 0, 0, 0⟩] (fun b => b.acc))
        ≠ listMean ([(⟨1, 0, 0, 0, 0⟩ : Batch), ⟨3, 1, 0, 0, 0⟩].map
            (fun b => b.acc)) := by
  constructor
  · intro bs f
    unfold listMean
    rw [extendRepl_length, extendRepl_sum, Nat.cast_list_sum, List.map_map]
    rfl
  · have h1 : listMean (extendRepl [⟨1, 0, 0, 0, 0⟩, ⟨3, 1, 0, 0, 0⟩]
        (fun b => b.acc)) = 3/4 := by
      norm_num [listMean, extendRepl, List.flatMap, List.replicate]
    have h2 : listMean ([(⟨1, 0, 0, 0, 0⟩ : Batch), ⟨3, 1, 0, 0, 0⟩].map
        (fun b => b.acc)) = 1/2 := by
      norm_num [listMean]
    rw [h1, h2]
    norm_num

/-- C9: `main` installs no exception handler — an exception raised by any
external call (data-label listing, dataset loading, device transfer,
checkpoint deserialization, or the per-epoch numeric and file work)
propagates out of `mainRun` unchanged, with no recovery and no rollback:
the run's result is exactly the raised error. -/
theorem no_handler_propagation :
    ∀ (opt : Config) (args : Args) (env : Env) (e : PyErr),
      (env.getTrainLabelsRes = Except.error e →
        mainRun opt args env = Except.error e)
      ∧ (∀ n, env.getTrainLabelsRes = Except.ok n →
          env.trainDatasetRes = Except.error e →
          mainRun opt args env = Except.error e)
      ∧ (∀ n tb, env.getTrainLabelsRes = Except.ok n →
          env.trainDatasetRes = Except.ok tb →
          env.valDatasetRes = Except.error e →
          mainRun opt args env = Except.error e)
      ∧ (∀ n tb vb bb, env.getTrainLabelsRes = Except.ok n →
          env.trainDatasetRes = Except.ok tb →
          env.valDatasetRes = Except.ok vb →
          selectBackbone opt.backbone opt.use_se = Except.ok bb →
          env.modelToDeviceRes = Except.error e →
          mainRun opt args env = Except.error e)
      ∧ (∀ n tb vb bb, env.getTrainLabelsRes = Except.ok n →
          env.trainDatasetRes = Except.ok tb →
          env.valDatasetRes = Except.ok vb →
          selectBackbone opt.backbone opt.use_se = Except.ok bb →
          env.modelToDeviceRes = Except.ok () →
          args.train_second = true →
          env.torchLoadRes = Except.error e →
          mainRun opt args env = Except.error e)
      ∧ (∀ n tb vb bb k, env.getTrainLabelsRes = Except.ok n →
          env.trainDatasetRes = Except.ok tb →
          env.valDatasetRes = Except.ok vb →
          selectBackbone opt.backbone opt.use_se = Except.ok bb →
          env.modelToDeviceRes = Except.ok () →
          env.torchLoadRes = Except.ok () →
          (∀ j, j < k → env.epochRes j = Except.ok ()) →
          k < opt.max_epoch →
          env.epochRes k = Except.error e →
          mainRun opt args env = Except.error e) := by
  intro opt args env e
  refine ⟨fun h1 => ?_, fun n h1 h2 => ?_, fun n tb h1 h2 h3 => ?_,
    fun n tb vb bb h1 h2 h3 hsel h4 => ?_,
    fun n tb vb bb h1 h2 h3 hsel h4 hts h5 => ?_,
    fun n tb vb bb k h1 h2 h3 hsel h4 h5 hpre hk h6 => ?_⟩
  · simp [mainRun, h1, exceptErrorBind]
  · simp [mainRun, h1, h2, exceptOkBind, exceptErrorBind]
  · simp [mainRun, h1, h2, h3, exceptOkBind, exceptErrorBind]
  · simp [mainRun, h1, h2, h3, hsel, h4, exceptOkBind, exceptErrorBind]
  · simp [mainRun, h1, h2, h3, hsel, h4, hts, h5, exceptOkBind, exceptErrorBind]
  · cases hts : args.train_second with
    | false =>
      have hloop : loopRunE { opt with num_classes := n } false env tb vb
          = Except.error e :=
        loopRunE_err _ _ env tb vb k e hk hpre h6
      simp [mainRun, h1, h2, h3, hsel, h4, h5, hts, hloop,
        exceptOkBind, exceptErrorBind]
    | true =>
      have hloop : loopRunE { opt with num_classes := n, metric := "liner" }
          true env tb vb = Except.error e :=
        loopRunE_err _ _ env tb vb k e hk hpre h6
      simp [mainRun, h1, h2, h3, hsel, h4, h5, hts, hloop,
        exceptOkBind, exceptErrorBind]

/-- Witness for C9: six concrete runs, each failing at a different external
call, all end with exactly that call's error. -/
theorem no_handler_propagation_witness :
    mainRun cfgEx ⟨false⟩
        { envOkEx with getTrainLabelsRes := Except.error (PyErr.external ("labels")) }
      = Except.error (PyErr.external ("labels"))
    ∧ mainRun cfgEx ⟨false⟩
        { envOkEx with trainDatasetRes := Except.error (PyErr.external ("read")) }
      = Except.error (PyErr.external ("read"))
    ∧ mainRun cfgEx ⟨false⟩
        { envOkEx with valDatasetRes := Except.error (PyErr.external ("read2")) }
      = Except.error (PyErr.external ("read2"))
    ∧ mainRun cfgEx ⟨false⟩
        { envOkEx with modelToDeviceRes := Except.error (PyErr.external ("cuda")) }
      = Except.error (PyErr.external ("cuda"))
    ∧ mainRun cfgEx ⟨true⟩
        { envOkEx with torchLoadRes := Except.error (PyErr.external ("load")) }
      = Except.error (PyErr.external ("load"))
    ∧ mainRun cfgEx ⟨false⟩
        { envOkEx with epochRes := fun j =>
            if j = 1 then Except.error (PyErr.external ("save")) else Except.ok () }
      = Except.error (PyErr.external ("save")) := by
  refine ⟨?_, ?_, ?_, ?_, ?_, ?_⟩
  · exact (no_handler_propagation cfgEx ⟨false⟩ _ _).1 rfl
  · exact (no_handler_propagation cfgEx ⟨false⟩ _ _).2.1 5 rfl rfl
  · exact (no_handler_propagation cfgEx ⟨false⟩ _ _).2.2.1 5 [] rfl rfl rfl
  · exact (no_handler_propagation cfgEx ⟨false⟩ _ _).2.2.2.1 5 [] []
      (Backbone.resnet_face18 false) rfl rfl rfl rfl rfl
  · exact (no_handler_propagation cfgEx ⟨true⟩ _ _).2.2.2.2.1 5 [] []
      (Backbone.resnet_face18 false) rfl rfl rfl rfl rfl rfl rfl
  · exact (no_handler_propagation cfgEx ⟨false⟩ _ _).2.2.2.2.2 5 [] []
      (Backbone.resnet_face18 false) 1 rfl rfl rfl rfl rfl rfl
      (fun j hj => by
        have hj0 : j = 0 := Nat.lt_one_iff.mp hj
        subst hj0
        rfl)
      (by decide) rfl

/-- C7: with `--train_second` every backbone parameter has `requires_grad`
set to `False` before the loop, and any number of optimizer iterations
leaves every backbone parameter value unchanged; without the flag the
backbone parameters keep PyTorch's default `requires_grad=True`, and an
optimizer iteration moves such a parameter by `-lr * grad` (so it is
trainable). -/
theorem second_stage_freezes_backbone :
    ∀ (ps : List Param) (lr : Rat) (gs : List (Nat → Rat)) (vs : List Rat)
      (v : Rat) (g : Nat → Rat),
      ((freezeParams ps).map Param.requiresGrad = List.replicate ps.length false)
      ∧ ((runTraining lr gs (freezeParams ps)).map Param.value = ps.map Param.value)
      ∧ ((vs.map initParam).map Param.requiresGrad = List.replicate vs.length true)
      ∧ (optIter lr g [initParam v]
          = [{ value := v - lr * g 0, requiresGrad := true, grad := some (g 0) }]) := by
  intro ps lr gs vs v g
  have hzgGrad : ∀ (qs : List Param),
      (∀ p ∈ qs, p.requiresGrad = false) →
      ∀ p ∈ zeroGrad qs, p.requiresGrad = false := by
    intro qs hq p hp
    rcases List.mem_map.mp hp with ⟨q, hqm, hq2⟩
    have hpr : p.requiresGrad = q.requiresGrad := by rw [← hq2]
    rw [hpr]
    exact hq q hqm
  have hzgVal : ∀ (qs : List Param),
      (zeroGrad qs).map Param.value = qs.map Param.value := by
    intro qs
    induction qs with
    | nil => rfl
    | cons p l ih =>
      have hcons : zeroGrad (p :: l) = { p with grad := none } :: zeroGrad l := rfl
      rw [hcons, List.map_cons, List.map_cons, ih]
  refine ⟨?_, ?_, ?_, ?_⟩
  · simp only [freezeParams, List.map_map]
    have h1 : (Param.requiresGrad ∘ fun p : Param =>
        { p with requiresGrad := false }) = Function.const Param false := rfl
    rw [h1, List.map_const]
  · have frozenStep : ∀ (qs : List Param) (g2 : Nat → Rat),
        (∀ p ∈ qs, p.requiresGrad = false) →
        optIter lr g2 qs = zeroGrad qs := by
      intro qs g2 hq
      unfold optIter
      have hback : ∀ (rs : List Param) (j : Nat),
          (∀ p ∈ rs, p.requiresGrad = false) →
          backwardAccum g2 rs j = rs := by
        intro rs
        induction rs with
        | nil => intro j _; rfl
        | cons p l ih =>
          intro j hr
          have hp : p.requiresGrad = false := hr p (by simp)
          simp only [backwardAccum, hp, Bool.false_eq_true, if_false,
            ite_false]
          rw [ih (j + 1) (fun q hq2 => hr q (by simp [hq2]))]
      rw [hback (zeroGrad qs) 0 (hzgGrad qs hq)]
      have hnone : ∀ (rs : List Param), sgdStep lr (zeroGrad rs) = zeroGrad rs := by
        intro rs
        induction rs with
        | nil => rfl
        | cons p l ih =>
          have hcons : zeroGrad (p :: l) = { p with grad := none } :: zeroGrad l := rfl
          rw [hcons]
          have hstep : sgdStep lr ({ p with grad := none } :: zeroGrad l)
              = { p with grad := none } :: sgdStep lr (zeroGrad l) := rfl
          rw [hstep, ih]
      exact hnone qs
    have hmain : ∀ (gs2 : List (Nat → Rat)) (qs : List Param),
        (∀ p ∈ qs, p.requiresGrad = false) →
        (runTraining lr gs2 qs).map Param.value = qs.map Param.value := by
      intro gs2
      induction gs2 with
      | nil => intro qs _; rfl
      | cons g2 l ih =>
        intro qs hq
        have hfold : runTraining lr (g2 :: l) qs = runTraining lr l (zeroGrad qs) := by
          unfold runTraining
          rw [List.foldl_cons, frozenStep qs g2 hq]
        rw [hfold, ih (zeroGrad qs) (hzgGrad qs hq), hzgVal qs]
    have hfr : ∀ p ∈ freezeParams ps, p.requiresGrad = false := by
      intro p hp
      rcases List.mem_map.mp hp with ⟨q, _, hq2⟩
      rw [← hq2]
    rw [hmain gs (freezeParams ps) hfr]
    simp only [freezeParams, List.map_map]
    rfl
  · simp only [List.map_map]
    have h1 : (Param.requiresGrad ∘ initParam) = Function.const Rat true := rfl
    rw [h1, List.map_const]
  · simp [optIter, zeroGrad, backwardAccum, initParam, sgdStep, Option.getD]

end ArcFaceTrain
